import Mathlib

/-!
Verification development for the jtfnews pipeline (src/main.py).

This file gives a shallow embedding, in Lean 4, of the verification,
deduplication and source-reliability core of the pipeline, translated
directly from the Python source, and proves (or refutes) the frozen
specification claims against it.

Conventions of the embedding:
* Python floats are modelled as rationals (ℚ); the properties at stake
  (blends, comparisons, tie-breaks) are arithmetic, not IEEE-rounding,
  properties.
* JSON dicts are modelled as association lists with dict lookup
  semantics; Python sets of strings as deduplicated lists.
* Text fed to the content hasher is modelled as a list of bytes
  (ASCII texts); `str.lower()` restricted to ASCII is `pyLowerByte`.
* External collaborators (the semantic oracle, the filesystem) are
  parameters of the embedded functions: the oracle's answers are passed
  in, and fallible file writes are modelled with `Except`.
-/

/-- One institutional-holder record of a configured source
(`CONFIG["sources"][i]["institutional_holders"][j]["name"]`); only the
name is read by the core logic. -/
structure Source where
  id : String
  name : String
  owner : String
  institutional_holders : List String
  /-- `ratings.accuracy` — the configured editorial baseline (0–10). -/
  accuracy : ℚ
deriving DecidableEq, Repr

/-- The configuration slice read by the embedded core
(`CONFIG["sources"]`, `CONFIG["unrelated_rules"]["max_shared_top_holders"]`,
`CONFIG["thresholds"]["queue_timeout_hours"]`). -/
structure Config where
  sources : List Source
  max_shared_top_holders : Nat
  queue_timeout_hours : ℚ
deriving DecidableEq, Repr

/-- Python-dict lookup over a list of sources keyed by id:
`{s["id"]: s for s in CONFIG["sources"]}` keeps the LAST entry per key,
so the fold keeps overwriting. -/
def dictFindSource (l : List Source) (i : String) : Option Source :=
  l.foldl (fun acc s => if s.id = i then some s else acc) none

/-- First-match lookup, as in the `for source in CONFIG["sources"]:
if source["id"] == source_id: ...` loops of `get_learned_rating` and
`get_display_rating`. -/
def firstSource (cfg : Config) (i : String) : Option Source :=
  cfg.sources.find? (fun s => s.id = i)

/-- `len(holders1 & holders2)` with
`holdersk = {h["name"] for h in sk.get("institutional_holders", [])}`:
the number of distinct holder names the two sources share. -/
def sharedHolders (s1 s2 : Source) : Nat :=
  ((s1.institutional_holders.dedup).filter
    (fun h => h ∈ s2.institutional_holders)).length

/-- `are_sources_unrelated` (main.py 1224–1246): unknown id fails closed;
same owner is related; `len(shared) >= max_shared_top_holders` is related;
otherwise unrelated. -/
def are_sources_unrelated (cfg : Config) (source1_id source2_id : String) : Bool :=
  match dictFindSource cfg.sources source1_id, dictFindSource cfg.sources source2_id with
  | some s1, some s2 =>
    if s1.owner = s2.owner then false
    else if sharedHolders s1 s2 ≥ cfg.max_shared_top_holders then false
    else true
  | _, _ => false

/-- One entry of `learned_ratings.json`: per-source success/failure
counters (`{"successes": n, "failures": m}`). -/
structure SourceStats where
  successes : Nat
  failures : Nat
deriving DecidableEq, Repr

/-- The learned-ratings store: a JSON dict `source_id -> stats`,
modelled as an association list. -/
abbrev Ratings : Type := List (String × SourceStats)

/-- `source_id in ratings` / `ratings[source_id]` lookup. -/
def lookupStats (r : Ratings) (sid : String) : Option SourceStats :=
  (r.find? (fun p => p.1 = sid)).map (fun p => p.2)

/-- The counters the ledger holds for a source, with the lazily-created
default `{"successes": 0, "failures": 0}` for an absent key. -/
def statsOf (r : Ratings) (sid : String) : SourceStats :=
  (lookupStats r sid).getD ⟨0, 0⟩

/-- `ratings[source_id]["successes"] += 1` after the lazy
`{"successes": 0, "failures": 0}` initialisation
(`record_verification_success`, main.py 1429–1432): dict update on the
association list (keys are unique, so updating the first occurrence is
the dict mutation). -/
def bumpSuccess : Ratings → String → Ratings
  | [], sid => [(sid, ⟨1, 0⟩)]
  | p :: rest, sid =>
    if p.1 = sid then (p.1, ⟨p.2.successes + 1, p.2.failures⟩) :: rest
    else p :: bumpSuccess rest sid

/-- `ratings[source_id]["failures"] += 1` after the lazy initialisation
(`record_verification_failure`, main.py 1446–1449); dict update as in
`bumpSuccess`. -/
def bumpFailure : Ratings → String → Ratings
  | [], sid => [(sid, ⟨0, 1⟩)]
  | p :: rest, sid =>
    if p.1 = sid then (p.1, ⟨p.2.successes, p.2.failures + 1⟩) :: rest
    else p :: bumpFailure rest sid

/-- `get_learned_rating` (main.py 1459–1489). Maturity threshold 5:
absent stats → configured baseline (5.0 fallback for an unconfigured
source); fewer than 5 observations → blend of baseline and empirical
rate weighted by `total / 5`; otherwise pure `successes / total * 10`. -/
def get_learned_rating (cfg : Config) (ratings : Ratings) (source_id : String) : ℚ :=
  match lookupStats ratings source_id with
  | none =>
    match firstSource cfg source_id with
    | some s => s.accuracy
    | none => 5
  | some stats =>
    let total := stats.successes + stats.failures
    if total < 5 then
      match firstSource cfg source_id with
      | some s =>
        let default := s.accuracy
        let learned := if total > 0 then (stats.successes : ℚ) / (total : ℚ) * 10 else default
        let weight := (total : ℚ) / 5
        default * (1 - weight) + learned * weight
      | none => 5
    else (stats.successes : ℚ) / (total : ℚ) * 10

/-- `get_reliability_score` (main.py 1492–1506):
`learned rating × (confidence / 100)`. -/
def get_reliability_score (cfg : Config) (ratings : Ratings)
    (source_id : String) (confidence : ℚ) : ℚ :=
  get_learned_rating cfg ratings source_id * (confidence / 100)

/-- The numeric value formatted by `get_display_rating`
(main.py 1509–1548), with the string formatting elided: absent stats or
zero observations → the configured default (5.0 fallback); fewer than 10
observations → blend of default and empirical rate weighted by
`total / 10`; otherwise pure `successes / total * 10`. -/
def display_rating_value (cfg : Config) (ratings : Ratings) (source_id : String) : ℚ :=
  let default_rating := ((firstSource cfg source_id).map (fun s => s.accuracy)).getD 5
  match lookupStats ratings source_id with
  | none => default_rating
  | some stats =>
    let total := stats.successes + stats.failures
    if total = 0 then default_rating
    else if total < 10 then
      let learned := (stats.successes : ℚ) / (total : ℚ) * 10
      let weight := (total : ℚ) / 10
      default_rating * (1 - weight) + learned * weight
    else (stats.successes : ℚ) / (total : ℚ) * 10

/-- A verification-queue entry (main.py 5602–5610): `confidence` is
optional because legacy entries may lack the key
(`match.get("confidence", 85)` at 5503). Timestamps are modelled as
epoch seconds (the code parses ISO strings to `timestamp()`). -/
structure QueueEntry where
  fact : String
  source_id : String
  source_name : String
  source_rating : ℚ
  source_url : String
  timestamp : ℚ
  confidence : Option ℚ
deriving DecidableEq, Repr

/-- `clean_expired_queue` (main.py 1666–1682), with `now` and the
timeout passed explicitly: entries with `item_time > cutoff` are kept in
order; each other entry is dropped and a failure is recorded against its
source. Returns the cleaned queue and the updated counters. -/
def clean_expired_queue (cutoff : ℚ) (ratings : Ratings) :
    List QueueEntry → List QueueEntry × Ratings
  | [] => ([], ratings)
  | item :: rest =>
    if cutoff < item.timestamp then
      let res := clean_expired_queue cutoff ratings rest
      (item :: res.1, res.2)
    else
      clean_expired_queue cutoff (bumpFailure ratings item.source_id) rest

/-- ASCII restriction of Python `str.lower()` on one byte of encoded
text: uppercase letters map down, everything else is unchanged. -/
def pyLowerByte (b : Nat) : Nat :=
  if 65 ≤ b ∧ b ≤ 90 then b + 32 else b

/-- 32-bit wraparound. -/
def w32 (x : Nat) : Nat := x % 4294967296

/-- 32-bit left rotation (for `x < 2^32`). -/
def rotl32 (x s : Nat) : Nat := w32 (x * 2 ^ s + x / 2 ^ (32 - s))

/-- 32-bit bitwise complement (for `x < 2^32`). -/
def not32 (x : Nat) : Nat := Nat.xor x 4294967295

/-- The MD5 sine-derived constant table `K[0..63]`. -/
def md5K : List Nat :=
  [3614090360, 3905402710, 606105819, 3250441966, 4118548399, 1200080426,
   2821735955, 4249261313, 1770035416, 2336552879, 4294925233, 2304563134,
   1804603682, 4254626195, 2792965006, 1236535329, 4129170786, 3225465664,
   643717713, 3921069994, 3593408605, 38016083, 3634488961, 3889429448,
   568446438, 3275163606, 4107603335, 1163531501, 2850285829, 4243563512,
   1735328473, 2368359562, 4294588738, 2272392833, 1839030562, 4259657740,
   2763975236, 1272893353, 4139469664, 3200236656, 681279174, 3936430074,
   3572445317, 76029189, 3654602809, 3873151461, 530742520, 3299628645,
   4096336452, 1126891415, 2878612391, 4237533241, 1700485571, 2399980690,
   4293915773, 2240044497, 1873313359, 4264355552, 2734768916, 1309151649,
   4149444226, 3174756917, 718787259, 3951481745]

/-- The MD5 per-round shift table `s[0..63]`. -/
def md5S : List Nat :=
  [7, 12, 17, 22, 7, 12, 17, 22, 7, 12, 17, 22, 7, 12, 17, 22,
   5, 9, 14, 20, 5, 9, 14, 20, 5, 9, 14, 20, 5, 9, 14, 20,
   4, 11, 16, 23, 4, 11, 16, 23, 4, 11, 16, 23, 4, 11, 16, 23,
   6, 10, 15, 21, 6, 10, 15, 21, 6, 10, 15, 21, 6, 10, 15, 21]

/-- The four MD5 working registers. -/
structure MD5State where
  a : Nat
  b : Nat
  c : Nat
  d : Nat
deriving DecidableEq, Repr

/-- MD5 initial state. -/
def md5Init : MD5State := ⟨1732584193, 4023233417, 2562383102, 271733878⟩

/-- MD5 message padding: append `0x80`, zero-fill to 56 mod 64, then the
original bit length as 8 little-endian bytes. -/
def md5Pad (msg : List Nat) : List Nat :=
  let n := msg.length
  let zeros := (120 - ((n + 1) % 64)) % 64
  let bitLen := (8 * n) % 2 ^ 64
  msg ++ [128] ++ List.replicate zeros 0 ++
    (List.range 8).map (fun i => bitLen / 256 ^ i % 256)

/-- Little-endian 32-bit word `j` of a 64-byte chunk. -/
def md5Word (chunk : List Nat) (j : Nat) : Nat :=
  chunk.getD (4 * j) 0 + 256 * chunk.getD (4 * j + 1) 0 +
    65536 * chunk.getD (4 * j + 2) 0 + 16777216 * chunk.getD (4 * j + 3) 0

/-- One MD5 round `i` on registers `(a,b,c,d)` over chunk words `M`. -/
def md5Round (M : Nat → Nat) (st : MD5State) (i : Nat) : MD5State :=
  let fg : Nat × Nat :=
    if i < 16 then
      (Nat.lor (Nat.land st.b st.c) (Nat.land (not32 st.b) st.d), i)
    else if i < 32 then
      (Nat.lor (Nat.land st.d st.b) (Nat.land (not32 st.d) st.c), (5 * i + 1) % 16)
    else if i < 48 then
      (Nat.xor (Nat.xor st.b st.c) st.d, (3 * i + 5) % 16)
    else
      (Nat.xor st.c (Nat.lor st.b (not32 st.d)), (7 * i) % 16)
  let f := w32 (fg.1 + st.a + md5K.getD i 0 + M fg.2)
  ⟨st.d, w32 (st.b + rotl32 f (md5S.getD i 0)), st.b, st.c⟩

/-- Process one 64-byte chunk: 64 rounds, then add into the running state. -/
def md5Chunk (st : MD5State) (chunk : List Nat) : MD5State :=
  let r := (List.range 64).foldl (md5Round (md5Word chunk)) st
  ⟨w32 (st.a + r.a), w32 (st.b + r.b), w32 (st.c + r.c), w32 (st.d + r.d)⟩

/-- A 32-bit word as 4 little-endian bytes. -/
def le32 (w : Nat) : List Nat :=
  [w % 256, w / 256 % 256, w / 65536 % 256, w / 16777216 % 256]

/-- The 16-byte MD5 digest of a byte string. -/
def md5Digest (msg : List Nat) : List Nat :=
  let padded := md5Pad msg
  let st := (List.range (padded.length / 64)).foldl
    (fun st i => md5Chunk st ((padded.drop (64 * i)).take 64)) md5Init
  le32 st.a ++ le32 st.b ++ le32 st.c ++ le32 st.d

/-- Lowercase hex digit of a value below 16. -/
def hexDigit (n : Nat) : Char :=
  if n < 10 then Char.ofNat (48 + n) else Char.ofNat (87 + n)

/-- Lowercase hex rendering of a byte list (`hexdigest`). -/
def hexChars (bytes : List Nat) : List Char :=
  bytes.foldr (fun b acc => hexDigit (b / 16) :: hexDigit (b % 16) :: acc) []

/-- `get_story_hash` (main.py 1203–1205):
`hashlib.md5(text.lower().encode()).hexdigest()[:12]`, on text modelled
as ASCII bytes. -/
def get_story_hash (text : List Nat) : String :=
  String.mk ((hexChars (md5Digest (text.map pyLowerByte))).take 12)

/-- Whitespace bytes (space, tab, LF, CR) removed, to express that two
texts "differ only in whitespace". -/
def stripWS (text : List Nat) : List Nat :=
  text.filter (fun b => decide (b ≠ 32 ∧ b ≠ 9 ∧ b ≠ 10 ∧ b ≠ 13))

/-- Does the second list start with the first (over chars)? -/
def charsStartWith : List Char → List Char → Bool
  | [], _ => true
  | _ :: _, [] => false
  | a :: as, b :: bs => a == b && charsStartWith as bs

/-- Occurrence of `needle` inside `hay`, structural on `hay`. -/
def charsHaveSub (needle : List Char) : List Char → Bool
  | [] => charsStartWith needle []
  | h :: t => charsStartWith needle (h :: t) || charsHaveSub needle t

/-- Python's substring test `needle in hay` on strings. -/
def strIn (needle hay : String) : Bool :=
  charsHaveSub needle.data hay.data

/-- The slice of an already-published story read by the late-detail
merge path of `process_cycle` (main.py 5580–5599): its fact text and its
attribution string (`story["source"]`, e.g. `"Reuters, AP News"`). -/
structure PublishedRec where
  fact : String
  source : String
deriving DecidableEq, Repr

/-- A scraped headline as handed to `process_cycle`
(main.py 5602–5609 reads these keys). -/
structure Headline where
  text : String
  source_id : String
  source_name : String
  source_rating : ℚ
  source_url : String
  timestamp : ℚ
deriving DecidableEq, Repr

/-- Observable outcome of processing one headline inside
`process_cycle` (main.py 5491–5612): what was published (best wording
and the removed queue match), which source ids got a verification
success recorded (in call order), the resulting queue, and whether the
fact was appended to the queue. -/
structure StepResult where
  published : Option (String × QueueEntry)
  successes : List String
  queue : List QueueEntry
  queued : Bool
deriving DecidableEq, Repr

/-- The `for match in matches:` loop of `process_cycle`
(main.py 5496–5577): the first match from an unrelated source is
tie-broken on reliability scores (main.py 5500–5521; a missing queue
confidence defaults to 85); if the chosen wording trips the
contradiction check the loop continues with the next match, else the
story publishes with that wording. `contradicts` is the external
oracle's `check_contradiction` against the recent facts. -/
def processMatches (cfg : Config) (ratings : Ratings) (contradicts : String → Bool)
    (source_id : String) (confidence : ℚ) (fact : String) :
    List QueueEntry → Option (String × QueueEntry)
  | [] => none
  | m :: rest =>
    if are_sources_unrelated cfg source_id m.source_id then
      let new_reliability := get_reliability_score cfg ratings source_id confidence
      let queue_confidence := m.confidence.getD 85
      let queue_reliability := get_reliability_score cfg ratings m.source_id queue_confidence
      let best_fact := if queue_reliability > new_reliability then m.fact else fact
      if contradicts best_fact then
        processMatches cfg ratings contradicts source_id confidence fact rest
      else some (best_fact, m)
    else processMatches cfg ratings contradicts source_id confidence fact rest

/-- One headline's pass through the match/merge/queue logic of
`process_cycle` (main.py 5491–5612), after extraction and the
confidence, newsworthiness and duplicate gates. The oracle results are
parameters: `matchList` is `find_matching_stories(fact, queue)`,
`contradicts` is `check_contradiction` with the recent facts fixed,
`published_match` is `find_matching_published_story(fact)` and `delta`
is `extract_new_details`. On a verified match the matched wording is
removed from the queue by fact text and both sources are credited; on a
merge the updating source alone is credited (main.py 5586–5599 guards
this only by `source_name not in existing_sources`); otherwise the fact
is appended to the queue. TTS, file writes and the correction check are
elided. -/
def headlineStep (cfg : Config) (ratings : Ratings) (contradicts : String → Bool)
    (h : Headline) (confidence : ℚ) (fact : String)
    (matchList : List QueueEntry) (published_match : Option PublishedRec)
    (delta : Option String) (queue : List QueueEntry) : StepResult :=
  match matchList with
  | _ :: _ =>
    match processMatches cfg ratings contradicts h.source_id confidence fact matchList with
    | some (best_fact, m) =>
      { published := some (best_fact, m)
        successes := [h.source_id, m.source_id]
        queue := queue.filter (fun q => q.fact ≠ m.fact)
        queued := false }
    | none => { published := none, successes := [], queue := queue, queued := false }
  | [] =>
    let enqueue : StepResult :=
      { published := none
        successes := []
        queue := queue ++ [⟨fact, h.source_id, h.source_name, h.source_rating,
          h.source_url, h.timestamp, some confidence⟩]
        queued := true }
    match published_match with
    | some pm =>
      if strIn h.source_name pm.source = false then
        match delta with
        | some _ =>
          { published := none, successes := [h.source_id], queue := queue, queued := false }
        | none => enqueue
      else enqueue
    | none => enqueue

/-- The `correction` record written into a corrected story
(main.py 3326–3331). -/
structure CorrectionMeta where
  corrected_at : String
  ctype : String
  reason : String
  correcting_sources : List String
deriving DecidableEq, Repr

/-- A published story as held in `stories.json` (the fields read and
written by `issue_correction`). -/
structure Story where
  id : String
  fact : String
  status : String
  original_fact : Option String
  correction : Option CorrectionMeta
deriving DecidableEq, Repr

/-- One entry of the append-only `corrections.json` log
(main.py 3344–3352). -/
structure CorrectionLogEntry where
  story_id : String
  corrected_at : String
  ctype : String
  original_fact : String
  corrected_fact : String
  reason : String
  correcting_sources : List String
deriving DecidableEq, Repr

/-- The story-update loop of `issue_correction` (main.py 3319–3333):
the FIRST story whose id matches is marked corrected, its
`original_fact` is set to the `original_fact` ARGUMENT (the value the
correction detector supplied, not the story's current fact), its fact
is replaced by the corrected fact, and a correction record is attached;
the loop then breaks. -/
def applyCorrection (now_iso story_id original_fact corrected_fact reason : String)
    (source_names : List String) (correction_type : String) :
    List Story → List Story
  | [] => []
  | st :: rest =>
    if st.id = story_id then
      { st with
        status := "corrected"
        original_fact := some original_fact
        fact := corrected_fact
        correction := some ⟨now_iso, correction_type, reason, source_names⟩ } :: rest
    else st :: applyCorrection now_iso story_id original_fact corrected_fact reason
      source_names correction_type rest

/-- `issue_correction` (main.py 3297–3377) on the persisted state:
updates the first matching story and appends one entry to the
corrections log. `source_names` models
`[s.get("source_name", "") for s in correcting_sources]`; the code
takes the first two. Audio, alerting and RSS side effects are elided. -/
def issue_correction (stories : List Story) (corrections : List CorrectionLogEntry)
    (now_iso story_id original_fact corrected_fact reason : String)
    (source_names : List String) (correction_type : String) :
    List Story × List CorrectionLogEntry :=
  (applyCorrection now_iso story_id original_fact corrected_fact reason
      (source_names.take 2) correction_type stories,
   corrections ++ [⟨story_id, now_iso, correction_type, original_fact,
      corrected_fact, reason, source_names.take 2⟩])

/-- The single I/O failure the storage model can raise. -/
inductive IOErr where
  | ioError
deriving DecidableEq, Repr

/-- An audit-trail line of `ratings_audit.jsonl` (main.py 1414–1420),
timestamp elided. -/
structure AuditEntry where
  source_id : String
  event : String
  fact_hash : String
deriving DecidableEq, Repr

/-- The durable reliability-ledger storage plus a model of the
filesystem's disposition: when a `fails` flag is set the corresponding
`open(...)`/write raises. -/
structure Store where
  ratings : Ratings
  audit : List AuditEntry
  ratings_write_fails : Bool
  audit_write_fails : Bool
deriving DecidableEq, Repr

/-- `save_learned_ratings` (main.py 1400–1404): a plain
`open`/`json.dump` with NO exception handler, so a filesystem error
propagates to the caller. -/
def save_learned_ratings (st : Store) (r : Ratings) : Except IOErr Store :=
  if st.ratings_write_fails then Except.error IOErr.ioError
  else Except.ok { st with ratings := r }

/-- `append_audit_log` (main.py 1407–1422): a plain append-mode
`open`/`write` with NO exception handler. -/
def append_audit_log (st : Store) (source_id event fact_hash : String) :
    Except IOErr Store :=
  if st.audit_write_fails then Except.error IOErr.ioError
  else Except.ok { st with audit := st.audit ++ [⟨source_id, event, fact_hash⟩] }

/-- `record_verification_success` (main.py 1425–1439): load, bump the
counter, save (propagating any error), then append an audit entry when
a fact hash was given (again propagating any error). -/
def record_verification_success_io (st : Store) (source_id : String)
    (fact_hash : Option String) : Except IOErr Store :=
  match save_learned_ratings st (bumpSuccess st.ratings source_id) with
  | Except.error e => Except.error e
  | Except.ok st =>
    match fact_hash with
    | some h => append_audit_log st source_id "success" h
    | none => Except.ok st

/-- `record_verification_failure` (main.py 1442–1456): same shape with
the failure counter. -/
def record_verification_failure_io (st : Store) (source_id : String)
    (fact_hash : Option String) : Except IOErr Store :=
  match save_learned_ratings st (bumpFailure st.ratings source_id) with
  | Except.error e => Except.error e
  | Except.ok st =>
    match fact_hash with
    | some h => append_audit_log st source_id "failure" h
    | none => Except.ok st

/-! Concrete fixtures (a small configuration in the shape of
`config.json`) used to instantiate the theorems below. -/

/-- Example source: independently owned wire service. -/
def srcReuters : Source := ⟨"reuters", "Reuters", "Thomson Reuters", ["BlackRock", "Vanguard"], 9⟩

/-- Example source: cooperative, unrelated to `srcReuters`. -/
def srcAP : Source := ⟨"ap", "AP News", "AP Cooperative", ["StateStreet"], 7⟩

/-- Example source: outlet owned by MegaCorp. -/
def srcAlpha : Source := ⟨"alpha", "Alpha News", "MegaCorp", [], 8⟩

/-- Example source: a second outlet under the same MegaCorp owner. -/
def srcBeta : Source := ⟨"beta", "Beta Daily", "MegaCorp", [], 6⟩

/-- Example configuration: four sources, holder-overlap threshold 2. -/
def cfgEx : Config := ⟨[srcReuters, srcAP, srcAlpha, srcBeta], 2, 24⟩

/-- Example queue entry from AP with a stored confidence of 95. -/
def apEntry : QueueEntry := ⟨"F old", "ap", "AP News", 7, "", 0, some 95⟩

/-- Example legacy queue entry from AP with no stored confidence. -/
def apEntryNC : QueueEntry := ⟨"F old", "ap", "AP News", 7, "", 0, none⟩

/-- Example incoming headline from Reuters. -/
def hReuters : Headline := ⟨"raw headline", "reuters", "Reuters", 9, "", 3600⟩

/-- Example incoming headline from Beta Daily. -/
def hBeta : Headline := ⟨"raw headline 2", "beta", "Beta Daily", 6, "", 3600⟩

/-- Example published story attributed to Alpha News, for the
late-detail merge path. -/
def pubAlpha : PublishedRec := ⟨"MegaCorp event happened", "Alpha News"⟩

/-- Example published story record before any correction. -/
def storyA : Story := ⟨"2026-10-11-001", "Original fact A", "published", none, none⟩

/-- Ledger storage whose ratings-file write raises an I/O error. -/
def storeFailing : Store := ⟨[], [], true, false⟩

/-- Ledger storage whose counters write succeeds but whose audit-log
append raises an I/O error. -/
def storeAuditFailing : Store := ⟨[("ap", ⟨2, 1⟩)], [], false, true⟩

/-- Ledger storage whose writes succeed. -/
def storeOK : Store := ⟨[("ap", ⟨2, 1⟩)], [], false, false⟩

/-! Helper lemmas. -/

theorem lookupStats_cons (p : String × SourceStats) (rest : Ratings) (sid : String) :
    lookupStats (p :: rest) sid = if p.1 = sid then some p.2 else lookupStats rest sid := by
  by_cases h : p.1 = sid <;> simp [lookupStats, List.find?, h]

theorem statsOf_bumpFailure (r : Ratings) (sid sid' : String) :
    statsOf (bumpFailure r sid) sid' =
      if sid = sid' then ⟨(statsOf r sid).successes, (statsOf r sid).failures + 1⟩
      else statsOf r sid' := by
  induction r with
  | nil =>
    by_cases h : sid = sid'
    · subst h; simp [bumpFailure, statsOf, lookupStats, List.find?]
    · simp [bumpFailure, statsOf, lookupStats, List.find?, h]
  | cons p rest ih =>
    by_cases hp : p.1 = sid
    · by_cases h : sid = sid'
      · subst h; simp [bumpFailure, hp, statsOf, lookupStats_cons]
      · have hps : ¬ p.1 = sid' := fun he => h (hp.symm.trans he)
        simp [bumpFailure, hp, statsOf, lookupStats_cons, hps, h]
    · by_cases hp' : p.1 = sid'
      · have h : ¬ sid = sid' := fun he => hp (hp'.trans he.symm)
        have h2 : ¬ sid' = sid := fun he => h he.symm
        simp [bumpFailure, hp, statsOf, lookupStats_cons, hp', h, h2]
      · simpa [bumpFailure, hp, statsOf, lookupStats_cons, hp'] using ih

/-- C6: the expiry step keeps exactly the queue entries still inside the
timeout window (in order) and, for each source, adds to its failure
counter exactly the number of its own expired entries — one failure per
expired entry — while leaving every success counter, and the counters of
sources with no expired entry, unchanged. -/
theorem expiry_records_one_failure (cutoff : ℚ) (ratings : Ratings)
    (queue : List QueueEntry) :
    (clean_expired_queue cutoff ratings queue).1 =
      queue.filter (fun e => decide (cutoff < e.timestamp)) ∧
    ∀ sid, statsOf (clean_expired_queue cutoff ratings queue).2 sid =
      ⟨(statsOf ratings sid).successes,
       (statsOf ratings sid).failures +
         (queue.filter
           (fun e => decide (e.timestamp ≤ cutoff ∧ e.source_id = sid))).length⟩ := by
  induction queue generalizing ratings with
  | nil => simp [clean_expired_queue]
  | cons e rest ih =>
    by_cases h : cutoff < e.timestamp
    · have hne : ¬ e.timestamp ≤ cutoff := not_le.mpr h
      refine ⟨?_, fun sid => ?_⟩
      · simp [clean_expired_queue, h, List.filter_cons, (ih ratings).1]
      · simp [clean_expired_queue, h, List.filter_cons, hne, (ih ratings).2 sid]
    · have hle : e.timestamp ≤ cutoff := not_lt.mp h
      refine ⟨?_, fun sid => ?_⟩
      · simp [clean_expired_queue, h, List.filter_cons,
          (ih (bumpFailure ratings e.source_id)).1]
      · have hrec := (ih (bumpFailure ratings e.source_id)).2 sid
        by_cases hs : e.source_id = sid
        · subst hs
          simp [clean_expired_queue, h, List.filter_cons, hle, hrec,
            statsOf_bumpFailure]
          omega
        · simp [clean_expired_queue, h, List.filter_cons, hle, hs, hrec,
            statsOf_bumpFailure]

/-- C4: `are_sources_unrelated a b` returns true exactly when both
source ids resolve in the registry, the two declared owners differ, and
the number of shared institutional holders is strictly below the
configured threshold; when either id is unknown it returns false (fails
closed). -/
theorem unrelated_characterisation (cfg : Config) (a b : String) :
    (are_sources_unrelated cfg a b = true ↔
      ∃ s1 s2, dictFindSource cfg.sources a = some s1 ∧
        dictFindSource cfg.sources b = some s2 ∧
        s1.owner ≠ s2.owner ∧ sharedHolders s1 s2 < cfg.max_shared_top_holders) ∧
    ((dictFindSource cfg.sources a = none ∨ dictFindSource cfg.sources b = none) →
      are_sources_unrelated cfg a b = false) := by
  unfold are_sources_unrelated
  cases h1 : dictFindSource cfg.sources a with
  | none => simp
  | some s1 =>
    cases h2 : dictFindSource cfg.sources b with
    | none => simp
    | some s2 =>
      refine ⟨?_, by simp⟩
      dsimp only
      split_ifs with ho hs
      · simp only [false_iff]
        rintro ⟨t1, t2, ht1, ht2, how, hsh⟩
        cases ht1; cases ht2; exact how ho
      · simp only [false_iff]
        rintro ⟨t1, t2, ht1, ht2, how, hsh⟩
        cases ht1; cases ht2; exact absurd hs (not_le.mpr hsh)
      · simp only [true_iff]
        exact ⟨s1, s2, rfl, rfl, ho, not_le.mp hs⟩

/-- Witness for C4: in the example registry, Reuters and AP are
unrelated (both known, different owners, no shared holders below the
threshold of 2), via the characterisation. -/
theorem unrelated_characterisation_witness :
    are_sources_unrelated cfgEx "reuters" "ap" = true :=
  (unrelated_characterisation cfgEx "reuters" "ap").1.mpr
    ⟨srcReuters, srcAP, by decide, by decide, by decide, by decide⟩

/-- C2: for a configured source with baseline in [0,10], the learned
rating equals the baseline exactly at zero recorded observations, equals
the convex blend `baseline·(1−t/5) + (successes/t·10)·(t/5)` when the
total observation count t satisfies 0 < t < 5 (the code's maturity
threshold M = 5), equals the pure empirical rate `successes/t·10` when
t ≥ 5, and is in all cases a value in [0,10]. -/
theorem learned_rating_blend (cfg : Config) (ratings : Ratings) (sid : String)
    (s : Source) (hs : firstSource cfg sid = some s)
    (hb0 : 0 ≤ s.accuracy) (hb10 : s.accuracy ≤ 10) :
    (0 ≤ get_learned_rating cfg ratings sid ∧ get_learned_rating cfg ratings sid ≤ 10) ∧
    ((statsOf ratings sid).successes + (statsOf ratings sid).failures = 0 →
      get_learned_rating cfg ratings sid = s.accuracy) ∧
    (∀ t : Nat, t = (statsOf ratings sid).successes + (statsOf ratings sid).failures →
      0 < t → t < 5 →
      get_learned_rating cfg ratings sid =
        s.accuracy * (1 - (t : ℚ) / 5) +
          (((statsOf ratings sid).successes : ℚ) / (t : ℚ) * 10) * ((t : ℚ) / 5)) ∧
    (∀ t : Nat, t = (statsOf ratings sid).successes + (statsOf ratings sid).failures →
      5 ≤ t →
      get_learned_rating cfg ratings sid =
        ((statsOf ratings sid).successes : ℚ) / (t : ℚ) * 10) := by
  cases hlk : lookupStats ratings sid with
  | none =>
    have hst : statsOf ratings sid = ⟨0, 0⟩ := by simp [statsOf, hlk]
    have hval : get_learned_rating cfg ratings sid = s.accuracy := by
      simp [get_learned_rating, hlk, hs]
    refine ⟨⟨hval ▸ hb0, hval ▸ hb10⟩, fun _ => hval, ?_, ?_⟩
    · intro t ht h0 _
      simp [hst] at ht
      omega
    · intro t ht h5
      simp [hst] at ht
      omega
  | some stats =>
    have hst : statsOf ratings sid = stats := by simp [statsOf, hlk]
    rw [hst]
    have hscle : (stats.successes : ℚ) ≤ ((stats.successes + stats.failures : Nat) : ℚ) := by
      exact_mod_cast Nat.le_add_right _ _
    have hsc0 : (0 : ℚ) ≤ (stats.successes : ℚ) := Nat.cast_nonneg _
    by_cases ht5 : stats.successes + stats.failures < 5
    · by_cases ht0 : 0 < stats.successes + stats.failures
      · have htpos : (0 : ℚ) < ((stats.successes + stats.failures : Nat) : ℚ) := by
          exact_mod_cast ht0
        have hval : get_learned_rating cfg ratings sid =
            s.accuracy * (1 - ((stats.successes + stats.failures : Nat) : ℚ) / 5) +
              ((stats.successes : ℚ) / ((stats.successes + stats.failures : Nat) : ℚ) * 10) *
                (((stats.successes + stats.failures : Nat) : ℚ) / 5) := by
          simp [get_learned_rating, hlk, hs, ht5, ht0]
        have he0 : (0 : ℚ) ≤
            (stats.successes : ℚ) / ((stats.successes + stats.failures : Nat) : ℚ) * 10 := by
          positivity
        have he10 : (stats.successes : ℚ) / ((stats.successes + stats.failures : Nat) : ℚ) * 10
            ≤ 10 := by
          have h1 : (stats.successes : ℚ) / ((stats.successes + stats.failures : Nat) : ℚ) ≤ 1 :=
            (div_le_one htpos).mpr hscle
          nlinarith
        have hw0 : (0 : ℚ) ≤ ((stats.successes + stats.failures : Nat) : ℚ) / 5 := by positivity
        have hw1 : ((stats.successes + stats.failures : Nat) : ℚ) / 5 ≤ 1 := by
          have : ((stats.successes + stats.failures : Nat) : ℚ) ≤ 5 := by
            exact_mod_cast Nat.le_of_lt ht5
          linarith
        refine ⟨⟨?_, ?_⟩, ?_, ?_, ?_⟩
        · rw [hval]
          have h1 := mul_nonneg hb0 (by linarith :
            (0:ℚ) ≤ 1 - ((stats.successes + stats.failures : Nat) : ℚ) / 5)
          have h2 := mul_nonneg he0 hw0
          linarith
        · rw [hval]
          have h1 := mul_le_mul_of_nonneg_right hb10 (by linarith :
            (0:ℚ) ≤ 1 - ((stats.successes + stats.failures : Nat) : ℚ) / 5)
          have h2 := mul_le_mul_of_nonneg_right he10 hw0
          nlinarith
        · intro h; omega
        · intro t ht _ _
          subst ht
          exact hval
        · intro t ht h5; omega
      · have ht00 : stats.successes + stats.failures = 0 := by omega
        have hval : get_learned_rating cfg ratings sid = s.accuracy := by
          simp [get_learned_rating, hlk, hs, ht5, ht0]
          ring
        refine ⟨⟨hval ▸ hb0, hval ▸ hb10⟩, fun _ => hval, ?_, ?_⟩
        · intro t ht h0 _; omega
        · intro t ht h5; omega
    · have htpos : (0 : ℚ) < ((stats.successes + stats.failures : Nat) : ℚ) := by
        have : 0 < stats.successes + stats.failures := by omega
        exact_mod_cast this
      have hval : get_learned_rating cfg ratings sid =
          (stats.successes : ℚ) / ((stats.successes + stats.failures : Nat) : ℚ) * 10 := by
        simp [get_learned_rating, hlk, ht5]
      have he0 : (0 : ℚ) ≤
          (stats.successes : ℚ) / ((stats.successes + stats.failures : Nat) : ℚ) * 10 := by
        positivity
      have he10 : (stats.successes : ℚ) / ((stats.successes + stats.failures : Nat) : ℚ) * 10
          ≤ 10 := by
        have h1 : (stats.successes : ℚ) / ((stats.successes + stats.failures : Nat) : ℚ) ≤ 1 :=
          (div_le_one htpos).mpr hscle
        nlinarith
      refine ⟨⟨hval ▸ he0, hval ▸ he10⟩, ?_, ?_, ?_⟩
      · intro h; omega
      · intro t ht _ h5; omega
      · intro t ht _
        subst ht
        exact hval

/-- Witness for C2: a source with baseline 9 and counters (2 successes,
1 failure) gets the blended rating, instantiating every hypothesis of
the blend theorem at `t = 3`. -/
theorem learned_rating_blend_witness :
    get_learned_rating cfgEx [("reuters", ⟨2, 1⟩)] "reuters" =
      (9 : ℚ) * (1 - (3 : ℚ) / 5) + (((2 : ℚ) / 3) * 10) * ((3 : ℚ) / 5) := by
  have h := (learned_rating_blend cfgEx [("reuters", ⟨2, 1⟩)] "reuters" srcReuters
    (by decide) (by norm_num [srcReuters]) (by norm_num [srcReuters])).2.2.1
    3 (by decide) (by decide) (by decide)
  rw [h]
  norm_num [srcReuters, statsOf, lookupStats, List.find?]

/-- C3 counterexample: with exactly one recorded observation (one
success) for a baseline-9 source, the learned-rating operation computes
9·(4/5) + 10·(1/5) = 46/5 while the display-rating operation formats
9·(9/10) + 10·(1/10) = 91/10 — the two operations disagree on the
underlying number because they use different maturity thresholds
(5 versus 10). -/
theorem display_vs_learned_counterexample :
    get_learned_rating cfgEx [("reuters", ⟨1, 0⟩)] "reuters" ≠
      display_rating_value cfgEx [("reuters", ⟨1, 0⟩)] "reuters" := by
  have h1 : get_learned_rating cfgEx [("reuters", ⟨1, 0⟩)] "reuters" = 46 / 5 := by
    simp [get_learned_rating, lookupStats, List.find?, firstSource, cfgEx, srcReuters]
    norm_num
  have h2 : display_rating_value cfgEx [("reuters", ⟨1, 0⟩)] "reuters" = 91 / 10 := by
    simp [display_rating_value, lookupStats, List.find?, firstSource, cfgEx, srcReuters]
    norm_num
  rw [h1, h2]
  norm_num

/-- C3 (amended): the display-rating operation uses the same blend shape
as the learned-rating operation but with maturity threshold 10 rather
than 5; the two underlying numbers coincide whenever the source has zero
recorded observations or at least 10 of them (and can disagree in
between, as the counterexample shows). -/
theorem display_rating_agreement (cfg : Config) (ratings : Ratings) (sid : String) :
    ((statsOf ratings sid).successes + (statsOf ratings sid).failures = 0 →
      display_rating_value cfg ratings sid = get_learned_rating cfg ratings sid) ∧
    (10 ≤ (statsOf ratings sid).successes + (statsOf ratings sid).failures →
      display_rating_value cfg ratings sid = get_learned_rating cfg ratings sid) := by
  cases hlk : lookupStats ratings sid with
  | none =>
    refine ⟨fun _ => ?_, fun _ => ?_⟩ <;>
      cases hfs : firstSource cfg sid <;>
        simp [display_rating_value, get_learned_rating, hlk, hfs]
  | some stats =>
    have hst : statsOf ratings sid = stats := by simp [statsOf, hlk]
    rw [hst]
    refine ⟨fun h => ?_, fun h => ?_⟩
    · have h5 : stats.successes + stats.failures < 5 := by omega
      cases hfs : firstSource cfg sid <;>
        simp [display_rating_value, get_learned_rating, hlk, hfs, h, h5]
    · have h5 : ¬ stats.successes + stats.failures < 5 := by omega
      have h10 : ¬ stats.successes + stats.failures < 10 := by omega
      have h0 : ¬ stats.successes + stats.failures = 0 := by omega
      simp [display_rating_value, get_learned_rating, hlk, h5, h10, h0]

/-- Witness for C3 (amended): at 10 observations (7 successes, 3
failures) the display value and the learned rating agree, by the
agreement theorem. -/
theorem display_rating_agreement_witness :
    display_rating_value cfgEx [("reuters", ⟨7, 3⟩)] "reuters" =
      get_learned_rating cfgEx [("reuters", ⟨7, 3⟩)] "reuters" :=
  (display_rating_agreement cfgEx [("reuters", ⟨7, 3⟩)] "reuters").2 (by decide)

theorem processMatches_spec (cfg : Config) (ratings : Ratings)
    (contradicts : String → Bool) (sid : String) (conf : ℚ) (fact : String)
    (L : List QueueEntry) (best : String) (m : QueueEntry)
    (h : processMatches cfg ratings contradicts sid conf fact L = some (best, m)) :
    are_sources_unrelated cfg sid m.source_id = true ∧
    best = (if get_reliability_score cfg ratings m.source_id (m.confidence.getD 85) >
        get_reliability_score cfg ratings sid conf then m.fact else fact) := by
  induction L with
  | nil => simp [processMatches] at h
  | cons e rest ih =>
    by_cases hu : are_sources_unrelated cfg sid e.source_id
    · by_cases hc : contradicts
        (if get_reliability_score cfg ratings e.source_id (e.confidence.getD 85) >
          get_reliability_score cfg ratings sid conf then e.fact else fact) = true
      · simp [processMatches, hu, hc] at h
        exact ih h
      · simp [processMatches, hu, hc] at h
        obtain ⟨hb, hm⟩ := h
        subst hm
        exact ⟨hu, hb.symm⟩
    · simp [processMatches, hu] at h
      exact ih h

theorem headlineStep_published (cfg : Config) (ratings : Ratings)
    (contradicts : String → Bool) (hd : Headline) (conf : ℚ) (fact : String)
    (matchList : List QueueEntry) (pm : Option PublishedRec) (delta : Option String)
    (queue : List QueueEntry) (best : String) (m : QueueEntry)
    (hp : (headlineStep cfg ratings contradicts hd conf fact matchList pm delta
        queue).published = some (best, m)) :
    processMatches cfg ratings contradicts hd.source_id conf fact matchList =
      some (best, m) := by
  cases matchList with
  | nil =>
    exfalso
    cases pm with
    | none => simp [headlineStep] at hp
    | some p =>
      by_cases hn : strIn hd.source_name p.source = false
      · cases delta with
        | some d => simp [headlineStep, hn] at hp
        | none => simp [headlineStep, hn] at hp
      · simp [headlineStep, hn] at hp
  | cons e rest =>
    cases hq : processMatches cfg ratings contradicts hd.source_id conf fact
        (e :: rest) with
    | none => simp [headlineStep, hq] at hp
    | some pr =>
      obtain ⟨b2, m2⟩ := pr
      simp [headlineStep, hq] at hp
      obtain ⟨hb, hm⟩ := hp
      subst hb
      subst hm
      rfl

/-- C1: whenever a processing cycle publishes on a verified queue match,
the matched entry's source is unrelated to the incoming one, and the
published wording is the reliability tie-break of main.py 5500–5521: the
incoming wording when the incoming reliability score is strictly higher,
the queued wording when the queued score is strictly higher, and the
incoming (never the queued) wording when the two scores are equal. -/
theorem tie_break_deterministic (cfg : Config) (ratings : Ratings)
    (contradicts : String → Bool) (hd : Headline) (conf : ℚ) (fact : String)
    (matchList : List QueueEntry) (pm : Option PublishedRec) (delta : Option String)
    (queue : List QueueEntry) (best : String) (m : QueueEntry)
    (hp : (headlineStep cfg ratings contradicts hd conf fact matchList pm delta
        queue).published = some (best, m)) :
    are_sources_unrelated cfg hd.source_id m.source_id = true ∧
    (get_reliability_score cfg ratings hd.source_id conf >
        get_reliability_score cfg ratings m.source_id (m.confidence.getD 85) →
      best = fact) ∧
    (get_reliability_score cfg ratings m.source_id (m.confidence.getD 85) >
        get_reliability_score cfg ratings hd.source_id conf →
      best = m.fact) ∧
    (get_reliability_score cfg ratings hd.source_id conf =
        get_reliability_score cfg ratings m.source_id (m.confidence.getD 85) →
      best = fact) := by
  have hq := headlineStep_published cfg ratings contradicts hd conf fact matchList
    pm delta queue best m hp
  have hs := processMatches_spec cfg ratings contradicts hd.source_id conf fact
    matchList best m hq
  refine ⟨hs.1, ?_, ?_, ?_⟩
  · intro hgt
    rw [hs.2, if_neg (not_lt.mpr (le_of_lt hgt))]
  · intro hgt
    rw [hs.2, if_pos hgt]
  · intro heq
    rw [hs.2, if_neg (not_lt.mpr heq.ge)]

/-- Witness for C1: with no learned counters, incoming Reuters at
confidence 90 scores 9·0.90 = 8.1 against the queued AP entry's
7·0.95 = 6.65, so the cycle publishes and the tie-break theorem applies
at this concrete state (the published wording is the incoming "F new"). -/
theorem tie_break_deterministic_witness :
    are_sources_unrelated cfgEx hReuters.source_id apEntry.source_id = true ∧
    (get_reliability_score cfgEx [] hReuters.source_id 90 >
        get_reliability_score cfgEx [] apEntry.source_id (apEntry.confidence.getD 85) →
      "F new" = "F new") ∧
    (get_reliability_score cfgEx [] apEntry.source_id (apEntry.confidence.getD 85) >
        get_reliability_score cfgEx [] hReuters.source_id 90 →
      "F new" = apEntry.fact) ∧
    (get_reliability_score cfgEx [] hReuters.source_id 90 =
        get_reliability_score cfgEx [] apEntry.source_id (apEntry.confidence.getD 85) →
      "F new" = "F new") :=
by
  have hu : are_sources_unrelated cfgEx "reuters" "ap" = true := by decide
  have hlt : ¬ (get_reliability_score cfgEx [] "reuters" 90 <
      get_reliability_score cfgEx [] "ap" 95) := by
    simp [get_reliability_score, get_learned_rating, lookupStats, firstSource,
      cfgEx, srcReuters, srcAP, srcAlpha, srcBeta, List.find?]
    norm_num
  have hpm : processMatches cfgEx [] (fun _ => false) "reuters" 90 "F new"
      [apEntry] = some ("F new", apEntry) := by
    simp [processMatches, apEntry, hu, hlt]
  exact tie_break_deterministic cfgEx [] (fun _ => false) hReuters 90 "F new"
    [apEntry] none none [apEntry] "F new" apEntry
    (by simp [headlineStep, hReuters, hpm])

/-- C10: when the matched queue entry has no stored confidence, the
tie-break computes its reliability with the default confidence 85
(`match.get("confidence", 85)`), so the published wording is determined
by comparing `learnedRating(queued source) × 85/100` with the incoming
source's full reliability score. -/
theorem queue_default_confidence (cfg : Config) (ratings : Ratings)
    (contradicts : String → Bool) (hd : Headline) (conf : ℚ) (fact : String)
    (matchList : List QueueEntry) (pm : Option PublishedRec) (delta : Option String)
    (queue : List QueueEntry) (best : String) (m : QueueEntry)
    (hp : (headlineStep cfg ratings contradicts hd conf fact matchList pm delta
        queue).published = some (best, m))
    (hnc : m.confidence = none) :
    (get_learned_rating cfg ratings m.source_id * (85 / 100) >
        get_reliability_score cfg ratings hd.source_id conf → best = m.fact) ∧
    (¬ get_learned_rating cfg ratings m.source_id * (85 / 100) >
        get_reliability_score cfg ratings hd.source_id conf → best = fact) := by
  have hq := headlineStep_published cfg ratings contradicts hd conf fact matchList
    pm delta queue best m hp
  have hs := processMatches_spec cfg ratings contradicts hd.source_id conf fact
    matchList best m hq
  have hrw : get_reliability_score cfg ratings m.source_id (m.confidence.getD 85) =
      get_learned_rating cfg ratings m.source_id * (85 / 100) := by
    rw [hnc]
    rfl
  rw [hrw] at hs
  refine ⟨fun hgt => ?_, fun hle => ?_⟩
  · rw [hs.2, if_pos hgt]
  · rw [hs.2, if_neg hle]

/-- Witness for C10: a legacy AP queue entry with no stored confidence
scores 7·0.85 = 5.95 against the incoming 8.1, so the incoming wording
is chosen; the default-confidence theorem applies at this concrete
state. -/
theorem queue_default_confidence_witness :
    (get_learned_rating cfgEx [] apEntryNC.source_id * (85 / 100) >
        get_reliability_score cfgEx [] hReuters.source_id 90 →
      "F new" = apEntryNC.fact) ∧
    (¬ get_learned_rating cfgEx [] apEntryNC.source_id * (85 / 100) >
        get_reliability_score cfgEx [] hReuters.source_id 90 →
      "F new" = "F new") :=
by
  have hu : are_sources_unrelated cfgEx "reuters" "ap" = true := by decide
  have hlt : ¬ (get_reliability_score cfgEx [] "reuters" 90 <
      get_reliability_score cfgEx [] "ap" 85) := by
    simp [get_reliability_score, get_learned_rating, lookupStats, firstSource,
      cfgEx, srcReuters, srcAP, srcAlpha, srcBeta, List.find?]
    norm_num
  have hpm : processMatches cfgEx [] (fun _ => false) "reuters" 90 "F new"
      [apEntryNC] = some ("F new", apEntryNC) := by
    simp [processMatches, apEntryNC, hu, hlt]
  exact queue_default_confidence cfgEx [] (fun _ => false) hReuters 90 "F new"
    [apEntryNC] none none [apEntryNC] "F new" apEntryNC
    (by simp [headlineStep, hReuters, hpm]) rfl

/-- C5 (code bug): on the late-detail merge path (main.py 5580–5599) the
code credits a verification success after only a name-substring check
(`source_name not in existing_sources`), never calling
`are_sources_unrelated` — despite the comment at main.py 5582 and the
spec's independence-gating property. Concretely: Alpha News and Beta
Daily are both owned by MegaCorp, so they are NOT unrelated, yet a Beta
Daily headline that merges a new detail into an Alpha News story records
a verification success for "beta". -/
theorem merge_path_skips_independence_gate :
    (headlineStep cfgEx [] (fun _ => false) hBeta 90 "MegaCorp event, new detail"
        [] (some pubAlpha) (some "extra detail") []).successes = ["beta"] ∧
    are_sources_unrelated cfgEx "beta" "alpha" = false := by decide

theorem hexChars_length (l : List Nat) : (hexChars l).length = 2 * l.length := by
  induction l with
  | nil => simp [hexChars]
  | cons b t ih =>
    simp [hexChars] at ih ⊢
    omega

theorem md5Digest_length (msg : List Nat) : (md5Digest msg).length = 16 := by
  simp [md5Digest, le32]

set_option maxRecDepth 10000 in
/-- C7 counterexample: the byte texts "a b" and "a  b" differ only in
whitespace (they are equal after removing whitespace bytes), yet their
content hashes differ — `get_story_hash` lowercases but does NOT
normalize whitespace before hashing. -/
theorem hash_whitespace_counterexample :
    stripWS [97, 32, 98] = stripWS [97, 32, 32, 98] ∧
    get_story_hash [97, 32, 98] ≠ get_story_hash [97, 32, 32, 98] := by decide

/-- C7 (amended): the content hash is case-insensitive — texts equal
after ASCII lowercasing hash identically — and always has the fixed
length 12; but it is not whitespace-normalized (see the
counterexample). -/
theorem hash_case_insensitive_fixed_length (t1 t2 t3 : List Nat)
    (h : t1.map pyLowerByte = t2.map pyLowerByte) :
    get_story_hash t1 = get_story_hash t2 ∧ (get_story_hash t3).length = 12 := by
  constructor
  · unfold get_story_hash
    rw [h]
  · simp [get_story_hash, String.length, List.length_take, hexChars_length,
      md5Digest_length]

set_option maxRecDepth 10000 in
/-- Witness for C7 (amended): "A" and "a" hash identically, and the hash
of "x" has length 12, via the amended theorem at these concrete texts. -/
theorem hash_case_insensitive_fixed_length_witness :
    get_story_hash [65] = get_story_hash [97] ∧ (get_story_hash [120]).length = 12 :=
  hash_case_insensitive_fixed_length [65] [97] [120] (by decide)

/-- C8 counterexample: correcting the story whose current fact is
"Original fact A" while the correction detector supplies the
original-fact string "Oracle paraphrase of A" leaves the record's
original-fact field holding the supplied string, not the value the fact
field had immediately before the correction — the pre-correction fact
text is overwritten and not preserved in the record. -/
theorem correction_original_fact_counterexample :
    storyA.fact = "Original fact A" ∧
    (issue_correction [storyA] [] "2026-10-12T00:00:00+00:00" "2026-10-11-001"
        "Oracle paraphrase of A" "Corrected fact B" "numbers conflict"
        ["Reuters", "AP News"] "correction").1.map (fun st => st.original_fact) =
      [some "Oracle paraphrase of A"] ∧
    ("Oracle paraphrase of A" : String) ≠ "Original fact A" := by decide

theorem applyCorrection_append
    (now_iso story_id original_fact corrected_fact reason : String)
    (srcs : List String) (ctype : String) (pre : List Story) (st : Story)
    (rest : List Story)
    (hpre : ∀ s ∈ pre, ¬ s.id = story_id) (hst : st.id = story_id) :
    applyCorrection now_iso story_id original_fact corrected_fact reason srcs
        ctype (pre ++ st :: rest) =
      pre ++
        { st with
          status := "corrected"
          original_fact := some original_fact
          fact := corrected_fact
          correction := some ⟨now_iso, ctype, reason, srcs⟩ } :: rest := by
  induction pre with
  | nil => simp [applyCorrection, hst]
  | cons p ps ih =>
    have hp : ¬ p.id = story_id := hpre p (by simp)
    simp only [List.cons_append, applyCorrection, hp, if_false]
    exact congrArg (fun l => p :: l) (ih (fun s hs => hpre s (by simp [hs])))

/-- C8 (amended): `issue_correction` marks the first story with the
given id as corrected and stores verbatim, both in the story record and
in the appended corrections-log entry, the original-fact ARGUMENT
supplied by the correction detector; it never reads the story's current
fact, so the pre-correction fact text is preserved exactly when the
detector supplies that very text. -/
theorem correction_stores_supplied_original
    (pre : List Story) (st : Story) (rest : List Story)
    (corrections : List CorrectionLogEntry)
    (now_iso story_id original_fact corrected_fact reason : String)
    (source_names : List String) (ctype : String)
    (hpre : ∀ s ∈ pre, ¬ s.id = story_id) (hst : st.id = story_id) :
    issue_correction (pre ++ st :: rest) corrections now_iso story_id
        original_fact corrected_fact reason source_names ctype =
      (pre ++
        { st with
          status := "corrected"
          original_fact := some original_fact
          fact := corrected_fact
          correction :=
            some ⟨now_iso, ctype, reason, source_names.take 2⟩ } :: rest,
       corrections ++ [⟨story_id, now_iso, ctype, original_fact, corrected_fact,
          reason, source_names.take 2⟩]) ∧
    (original_fact = st.fact → some original_fact = some st.fact) := by
  refine ⟨?_, fun h => by rw [h]⟩
  unfold issue_correction
  rw [applyCorrection_append now_iso story_id original_fact corrected_fact reason
    (source_names.take 2) ctype pre st rest hpre hst]

/-- Witness for C8 (amended): correcting the example story with the
exact pre-correction text supplied as the original fact, via the
amended theorem at this concrete state. -/
theorem correction_stores_supplied_original_witness :
    issue_correction [storyA] [] "2026-10-12T00:00:00+00:00" "2026-10-11-001"
        "Original fact A" "Corrected fact B" "numbers conflict"
        ["Reuters", "AP News"] "correction" =
      ([{ storyA with
          status := "corrected"
          original_fact := some "Original fact A"
          fact := "Corrected fact B"
          correction := some ⟨"2026-10-12T00:00:00+00:00", "correction",
            "numbers conflict", ["Reuters", "AP News"]⟩ }],
       [⟨"2026-10-11-001", "2026-10-12T00:00:00+00:00", "correction",
          "Original fact A", "Corrected fact B", "numbers conflict",
          ["Reuters", "AP News"]⟩]) ∧
    (("Original fact A" : String) = storyA.fact →
      some ("Original fact A" : String) = some storyA.fact) := by
  have h := correction_stores_supplied_original [] storyA [] []
    "2026-10-12T00:00:00+00:00" "2026-10-11-001" "Original fact A"
    "Corrected fact B" "numbers conflict" ["Reuters", "AP News"] "correction"
    (by simp) rfl
  simpa using h

/-- C9 counterexample: with the ratings-file write raising an I/O
error — and likewise with the counters write succeeding but the
audit-log append raising one — `record_verification_success` and
`record_verification_failure` return the error rather than returning
normally: there is no handler inside them (main.py 1400–1456), so the
failed write aborts the caller instead of being logged and skipped. -/
theorem ledger_write_error_counterexample :
    (record_verification_success_io storeFailing "ap" (some "abc123def456") =
      Except.error IOErr.ioError ∧
    record_verification_failure_io storeFailing "ap" (some "abc123def456") =
      Except.error IOErr.ioError) ∧
    (record_verification_success_io storeAuditFailing "ap" (some "abc123def456") =
      Except.error IOErr.ioError ∧
    record_verification_failure_io storeAuditFailing "ap" (some "abc123def456") =
      Except.error IOErr.ioError) := ⟨⟨rfl, rfl⟩, ⟨rfl, rfl⟩⟩

/-- C9 (amended): a reliability-ledger storage error is NOT caught
inside recordSuccess/recordFailure: when the counters write fails, and
likewise when the counters write succeeds but the audit-log append
fails, the I/O error propagates to the caller, aborting the in-progress
cycle work (only the top-level loop of `main`, main.py 5987, catches
it); when both writes succeed the operation returns normally with the
counter bumped and exactly one audit entry appended. -/
theorem ledger_write_error_propagates (st : Store) (sid fh : String) :
    (st.ratings_write_fails = true →
      record_verification_success_io st sid (some fh) = Except.error IOErr.ioError ∧
      record_verification_failure_io st sid (some fh) = Except.error IOErr.ioError) ∧
    (st.ratings_write_fails = false → st.audit_write_fails = false →
      record_verification_success_io st sid (some fh) =
        Except.ok
          { st with
            ratings := bumpSuccess st.ratings sid
            audit := st.audit ++ [⟨sid, "success", fh⟩] } ∧
      record_verification_failure_io st sid (some fh) =
        Except.ok
          { st with
            ratings := bumpFailure st.ratings sid
            audit := st.audit ++ [⟨sid, "failure", fh⟩] }) ∧
    (st.ratings_write_fails = false → st.audit_write_fails = true →
      record_verification_success_io st sid (some fh) = Except.error IOErr.ioError ∧
      record_verification_failure_io st sid (some fh) = Except.error IOErr.ioError) := by
  refine ⟨fun hf => ?_, fun hf ha => ?_, fun hf ha => ?_⟩
  · constructor <;>
      simp [record_verification_success_io, record_verification_failure_io,
        save_learned_ratings, append_audit_log, hf, Except.bind]
  · constructor <;>
      simp [record_verification_success_io, record_verification_failure_io,
        save_learned_ratings, append_audit_log, hf, ha, Except.bind]
  · constructor <;>
      simp [record_verification_success_io, record_verification_failure_io,
        save_learned_ratings, append_audit_log, hf, ha, Except.bind]

/-- Witness for C9 (amended): on a healthy store the success call
returns normally with the AP counter bumped and one audit line, and on
a store whose audit append fails the error propagates — both via the
amended theorem with the failure flags discharged concretely. -/
theorem ledger_write_error_propagates_witness :
    (record_verification_success_io storeOK "ap" (some "abc123def456") =
      Except.ok
        { storeOK with
          ratings := bumpSuccess storeOK.ratings "ap"
          audit := storeOK.audit ++ [⟨"ap", "success", "abc123def456"⟩] } ∧
    record_verification_failure_io storeOK "ap" (some "abc123def456") =
      Except.ok
        { storeOK with
          ratings := bumpFailure storeOK.ratings "ap"
          audit := storeOK.audit ++ [⟨"ap", "failure", "abc123def456"⟩] }) ∧
    (record_verification_success_io storeAuditFailing "ap" (some "abc123def456") =
      Except.error IOErr.ioError ∧
    record_verification_failure_io storeAuditFailing "ap" (some "abc123def456") =
      Except.error IOErr.ioError) :=
  ⟨(ledger_write_error_propagates storeOK "ap" "abc123def456").2.1 rfl rfl,
   (ledger_write_error_propagates storeAuditFailing "ap" "abc123def456").2.2 rfl rfl⟩
